import Mathlib

/-!
Verification of the steg-cli tool-dispatch core: file classification
(pkg/detector/detector.go), dispatch filtering and concurrent execution
(pkg/runner/runner.go), the tool registry (runner tools file), and the
scan command timeout plumbing (cmd/root.go).

The Go code is shallowly embedded: machine integers become Int/Nat,
byte slices become List Nat, subprocess execution and binary lookup are
abstracted into a per-tool environment record (ToolEnv) describing what
the outside world did, and the concurrent disjoint-index writes of
RunAll are serialized as a fold writing each index once (the final
slice after the WaitGroup barrier is the same for every interleaving,
because each goroutine writes a distinct index exactly once).
-/

namespace StegCLI

/-- FileCategory mirrors detector.FileCategory (detector.go lines 14-27). -/
inductive FileCategory where
  | png
  | jpg
  | bmp
  | gif
  | tiff
  | webp
  | wav
  | mp3
  | flac
  | ogg
  | au
  | unknown
  deriving DecidableEq, Repr

/-- FileInfo mirrors detector.FileInfo (detector.go lines 30-37). -/
structure FileInfo where
  Path : String
  Name : String
  Size : Int
  Category : FileCategory
  MimeType : String
  Extension : String
  deriving DecidableEq

/-- IsImage mirrors FileInfo.IsImage (detector.go lines 40-46). -/
def FileInfo.IsImage (f : FileInfo) : Bool :=
  match f.Category with
  | .png | .jpg | .bmp | .gif | .tiff | .webp => true
  | _ => false

/-- IsAudio mirrors FileInfo.IsAudio (detector.go lines 49-55). -/
def FileInfo.IsAudio (f : FileInfo) : Bool :=
  match f.Category with
  | .wav | .mp3 | .flac | .ogg | .au => true
  | _ => false

/-- Byte access header[i]; in the Go source every access is guarded by a
length check, so the default 0 is never observed where it matters. -/
def byteAt (header : List Nat) (i : Nat) : Nat := header.getD i 0

/-- Extension fallback table of detectCategory (detector.go lines 155-180);
note Detect lower-cases the extension before this is consulted. -/
def extFallback : String → FileCategory
  | ".png" => .png
  | ".jpg" | ".jpeg" | ".jfif" | ".jpe" => .jpg
  | ".bmp" => .bmp
  | ".gif" => .gif
  | ".tiff" | ".tif" => .tiff
  | ".webp" => .webp
  | ".wav" => .wav
  | ".mp3" => .mp3
  | ".flac" => .flac
  | ".ogg" => .ogg
  | ".au" => .au
  | _ => .unknown

/-- detectCategory mirrors detector.detectCategory (detector.go lines
101-181): magic-byte checks, attempted only when at least 8 header bytes
were read, then extension fallback, then unknown. The mime argument is
accepted and ignored exactly as in the source. -/
def detectCategory (_mime ext : String) (header : List Nat) : FileCategory :=
  if 8 ≤ header.length then
    if byteAt header 0 = 0x89 ∧ byteAt header 1 = 0x50 ∧
       byteAt header 2 = 0x4E ∧ byteAt header 3 = 0x47 then .png
    else if byteAt header 0 = 0xFF ∧ byteAt header 1 = 0xD8 ∧
            byteAt header 2 = 0xFF then .jpg
    else if byteAt header 0 = 0x42 ∧ byteAt header 1 = 0x4D then .bmp
    else if byteAt header 0 = 0x47 ∧ byteAt header 1 = 0x49 ∧
            byteAt header 2 = 0x46 ∧ byteAt header 3 = 0x38 then .gif
    else if (byteAt header 0 = 0x49 ∧ byteAt header 1 = 0x49 ∧
             byteAt header 2 = 0x2A ∧ byteAt header 3 = 0x00) ∨
            (byteAt header 0 = 0x4D ∧ byteAt header 1 = 0x4D ∧
             byteAt header 2 = 0x00 ∧ byteAt header 3 = 0x2A) then .tiff
    else if byteAt header 0 = 0x52 ∧ byteAt header 1 = 0x49 ∧
            byteAt header 2 = 0x46 ∧ byteAt header 3 = 0x46 ∧
            12 ≤ header.length ∧
            byteAt header 8 = 0x57 ∧ byteAt header 9 = 0x41 ∧
            byteAt header 10 = 0x56 ∧ byteAt header 11 = 0x45 then .wav
    else if byteAt header 0 = 0x52 ∧ byteAt header 1 = 0x49 ∧
            byteAt header 2 = 0x46 ∧ byteAt header 3 = 0x46 ∧
            12 ≤ header.length ∧
            byteAt header 8 = 0x57 ∧ byteAt header 9 = 0x45 ∧
            byteAt header 10 = 0x42 ∧ byteAt header 11 = 0x50 then .webp
    else if byteAt header 0 = 0x66 ∧ byteAt header 1 = 0x4C ∧
            byteAt header 2 = 0x61 ∧ byteAt header 3 = 0x43 then .flac
    else if byteAt header 0 = 0x4F ∧ byteAt header 1 = 0x67 ∧
            byteAt header 2 = 0x67 ∧ byteAt header 3 = 0x53 then .ogg
    else if (byteAt header 0 = 0xFF ∧ (byteAt header 1 &&& 0xE0) = 0xE0) ∨
            (byteAt header 0 = 0x49 ∧ byteAt header 1 = 0x44 ∧
             byteAt header 2 = 0x33) then .mp3
    else if byteAt header 0 = 0x2E ∧ byteAt header 1 = 0x73 ∧
            byteAt header 2 = 0x6E ∧ byteAt header 3 = 0x64 then .au
    else extFallback ext
  else extFallback ext

/-- Model of Go strings.ToLower for the ASCII tool and option names the
program compares (Char.toLower lowers exactly the ASCII uppercase range). -/
def goToLower (s : String) : String := String.mk (s.data.map Char.toLower)

/-- The whitespace set of Go unicode.IsSpace restricted to Latin-1, which
covers every byte the wrapped tools emit as surrounding whitespace. -/
def isGoSpace (c : Char) : Bool :=
  c = ' ' || c = '\t' || c = '\n' || c = '\x0b' || c = '\x0c' || c = '\r' ||
  c = '\x85' || c = '\xa0'

/-- Model of Go strings.TrimSpace: drop leading and trailing whitespace. -/
def goTrimSpace (s : String) : String :=
  String.mk (((s.data.dropWhile isGoSpace).reverse.dropWhile isGoSpace).reverse)

/-- RunOpts mirrors runner.RunOpts (runner.go lines 17-24); the field
defaults are the Go zero values, so ({} : RunOpts) is runner.RunOpts{}.
Timeout is in nanoseconds as Go time.Duration is an int64 nanosecond count. -/
structure RunOpts where
  Password : String := ""
  Verbose : Bool := false
  OutputDir : String := ""
  Skip : List String := []
  Only : List String := []
  Timeout : Int := 0
  deriving DecidableEq

/-- Tool mirrors runner.Tool (runner.go lines 27-33). The BuildCmd closure
performs I/O and is abstracted: whether it returns nil at dispatch time is
recorded in the per-tool environment (ToolEnv.builtCmd). -/
structure Tool where
  Name : String
  Binary : String
  Category : String
  SupportedTypes : List FileCategory
  deriving DecidableEq

/-- The two error shapes RunAll can attach to a result (runner.go lines
98 and 105): a timeout error naming the configured duration, or the
underlying process error message. -/
inductive RunError where
  | timeout (d : Int)
  | process (msg : String)
  deriving DecidableEq

/-- Result mirrors output.Result. Error is an Option like the Go nil-able
error interface value. -/
structure Result where
  ToolName : String
  Category : String
  Output : String := ""
  Error : Option RunError := none
  Duration : Int := 0
  Skipped : Bool := false
  SkipReason : String := ""
  deriving DecidableEq

/-- ToolEnv abstracts what the outside world does for one dispatched tool:
whether deps.IsToolAvailable finds the binary, whether BuildCmd returns a
non-nil command, whether the deadline context expired (ctx.Err() ==
context.DeadlineExceeded after the wait), the combined output bytes, the
CombinedOutput error message if any, and the measured elapsed time. -/
structure ToolEnv where
  available : Bool
  builtCmd : Bool
  deadlineExceeded : Bool
  out : String
  execErr : Option String
  elapsed : Int
  deriving DecidableEq

/-- runTool is the body of the per-tool goroutine in RunAll (runner.go
lines 60-112), with the subprocess interaction read from env. -/
def runTool (t : Tool) (opts : RunOpts) (env : ToolEnv) : Result :=
  let result : Result := { ToolName := t.Name, Category := t.Category }
  if !env.available then
    { result with Skipped := true, SkipReason := t.Binary ++ " not installed" }
  else if !env.builtCmd then
    { result with Skipped := true, SkipReason := "command not applicable" }
  else
    let result := { result with Duration := env.elapsed }
    if env.deadlineExceeded then
      { result with Error := some (.timeout opts.Timeout) }
    else
      match env.execErr with
      | some e =>
        let outStr := goTrimSpace env.out
        if outStr ≠ "" then
          { result with Output := outStr }
        else
          { result with Error := some (.process e) }
      | none => { result with Output := goTrimSpace env.out }

/-- The timeout default of RunAll (runner.go lines 44-46): only an exactly
zero Timeout is replaced by 60 seconds (in nanoseconds). -/
def normalizeTimeout (t : Int) : Int :=
  if t = 0 then 60 * 1000000000 else t

/-- filterTools mirrors runner.filterTools (runner.go lines 126-168): keep
a tool iff its lowered name is not a lowered Skip entry, and (Only is empty
or its lowered name is a lowered Only entry), and (SupportedTypes is empty
or contains the file category). The Go loop with continue statements is an
ordered filter. -/
def filterTools (tools : List Tool) (fileInfo : FileInfo) (opts : RunOpts) : List Tool :=
  tools.filter fun tool =>
    !(opts.Skip.any fun s => goToLower s = goToLower tool.Name) &&
    (opts.Only.isEmpty || opts.Only.any fun o => goToLower o = goToLower tool.Name) &&
    (tool.SupportedTypes.isEmpty || tool.SupportedTypes.any fun st => st = fileInfo.Category)

/-- allImageTypes mirrors the registry convenience list (tools file lines 14-17). -/
def allImageTypes : List FileCategory :=
  [.png, .jpg, .bmp, .gif, .tiff, .webp]

/-- allAudioTypes mirrors the registry convenience list (tools file lines 20-23). -/
def allAudioTypes : List FileCategory :=
  [.wav, .mp3, .flac, .ogg, .au]

/-- allTypes mirrors the registry convenience list (tools file line 26). -/
def allTypes : List FileCategory := allImageTypes ++ allAudioTypes

/-- GetAllTools mirrors the registry (tools file lines 29-441): the 23
descriptors in source order with their names, binaries, category labels and
supported types. The opts argument only feeds the BuildCmd closures and the
output-directory side effect in the source, neither of which contributes to
the descriptor data, so it is unused here. -/
def GetAllTools (_opts : RunOpts) : List Tool :=
  [ { Name := "file", Binary := "file", Category := "general", SupportedTypes := allTypes },
    { Name := "exiftool", Binary := "exiftool", Category := "general", SupportedTypes := allTypes },
    { Name := "binwalk", Binary := "binwalk", Category := "general", SupportedTypes := allTypes },
    { Name := "strings", Binary := "strings", Category := "general", SupportedTypes := allTypes },
    { Name := "hexdump", Binary := "xxd", Category := "general", SupportedTypes := allTypes },
    { Name := "foremost", Binary := "foremost", Category := "general", SupportedTypes := allTypes },
    { Name := "zsteg", Binary := "zsteg", Category := "image", SupportedTypes := [.png, .bmp] },
    { Name := "steghide-extract", Binary := "steghide", Category := "image",
      SupportedTypes := [.jpg, .bmp, .wav, .au] },
    { Name := "steghide-info", Binary := "steghide", Category := "image",
      SupportedTypes := [.jpg, .bmp, .wav, .au] },
    { Name := "pngcheck", Binary := "pngcheck", Category := "image", SupportedTypes := [.png] },
    { Name := "identify", Binary := "gm", Category := "image", SupportedTypes := allImageTypes },
    { Name := "jsteg", Binary := "jsteg", Category := "image", SupportedTypes := [.jpg] },
    { Name := "openstego", Binary := "openstego", Category := "image", SupportedTypes := [.png] },
    { Name := "stegoveritas", Binary := "stegoveritas", Category := "image",
      SupportedTypes := allImageTypes },
    { Name := "stegseek", Binary := "stegseek", Category := "image",
      SupportedTypes := [.jpg, .bmp, .wav, .au] },
    { Name := "stegsolve", Binary := "python3", Category := "image",
      SupportedTypes := [.png, .bmp, .jpg] },
    { Name := "steghide-audio", Binary := "steghide", Category := "audio",
      SupportedTypes := [.wav, .au] },
    { Name := "steghide-audio-info", Binary := "steghide", Category := "audio",
      SupportedTypes := [.wav, .au] },
    { Name := "wavsteg", Binary := "stegolsb", Category := "audio", SupportedTypes := [.wav] },
    { Name := "sox-spectrogram", Binary := "sox", Category := "audio",
      SupportedTypes := [.wav, .mp3, .flac, .ogg] },
    { Name := "stegseek-audio", Binary := "stegseek", Category := "audio",
      SupportedTypes := [.wav, .au] },
    { Name := "unicode-steg", Binary := "python3", Category := "text", SupportedTypes := allTypes },
    { Name := "spammimic", Binary := "python3", Category := "text", SupportedTypes := allTypes } ]

/-- ScanResult mirrors runner.ScanResult (runner.go lines 36-40). Results
is a list of nil-able pointers, hence Option: make allocates every slot to
nil and each goroutine stores exactly one non-nil result at its index. The
wall-clock Duration field is not modelled (set to 0). -/
structure ScanResult where
  fileInfo : FileInfo
  Results : List (Option Result)
  Duration : Int
  deriving DecidableEq

/-- writeResults serializes the disjoint-index stores results[idx] = result
performed by the goroutines of RunAll: each index in the list is written
once, over an initial nil-filled slice. -/
def writeResults (f : Nat → Option Result) : List Nat → List (Option Result) → List (Option Result)
  | [], acc => acc
  | i :: is, acc => writeResults f is (acc.set i (f i))

/-- RunAll mirrors runner.RunAll (runner.go lines 43-123): default the
timeout, filter the registry, run every applicable tool against its
environment, store each result at its pre-assigned index, and return the
aggregate after the WaitGroup barrier. -/
def RunAll (fileInfo : FileInfo) (opts : RunOpts) (env : Nat → ToolEnv) : ScanResult :=
  let opts := { opts with Timeout := normalizeTimeout opts.Timeout }
  let applicable := filterTools (GetAllTools opts) fileInfo opts
  let f : Nat → Option Result := fun i =>
    match applicable[i]? with
    | some t => some (runTool t opts (env i))
    | none => none
  let results := writeResults f (List.range applicable.length)
    (List.replicate applicable.length none)
  { fileInfo := fileInfo, Results := results, Duration := 0 }

/-- Model of the scan command timeout plumbing (cmd/root.go lines 73-84):
opts.Timeout starts as a 60 second literal; when the --timeout flag value
is positive it is overwritten with the RunOpts zero value. -/
def scanCmdTimeout (flagTimeout : Int) : Int :=
  if flagTimeout > 0 then ({} : RunOpts).Timeout else 60 * 1000000000

/-- Fixture tool records and environments used by the witnesses below. -/
def zstegTool : Tool :=
  { Name := "zsteg", Binary := "zsteg", Category := "image", SupportedTypes := [.png, .bmp] }

def binwalkTool : Tool :=
  { Name := "binwalk", Binary := "binwalk", Category := "general", SupportedTypes := allTypes }

def steghideExtractTool : Tool :=
  { Name := "steghide-extract", Binary := "steghide", Category := "image", SupportedTypes := [.jpg, .bmp, .wav, .au] }

def envNonzeroExit : ToolEnv :=
  { available := true, builtCmd := true, deadlineExceeded := false, out := "found flag\n", execErr := some "exit status 1", elapsed := 7 }

def envExpired : ToolEnv :=
  { available := true, builtCmd := true, deadlineExceeded := true, out := "partial", execErr := some "signal: killed", elapsed := 60000000123 }

def envMissingA : ToolEnv :=
  { available := false, builtCmd := true, deadlineExceeded := false, out := "data", execErr := none, elapsed := 3 }

def envMissingB : ToolEnv :=
  { available := false, builtCmd := false, deadlineExceeded := true, out := "", execErr := some "exec failed", elapsed := 9 }

def pngFileInfo : FileInfo :=
  { Path := "/tmp/secret.png", Name := "secret.png", Size := 251187, Category := .png, MimeType := "image/png", Extension := ".png" }

def unknownFileInfo : FileInfo :=
  { Path := "/tmp/blob.bin", Name := "blob.bin", Size := 42, Category := .unknown, MimeType := "application/octet-stream", Extension := ".bin" }

def genericTool : Tool :=
  { Name := "generic-analyzer", Binary := "generic-analyzer", Category := "general", SupportedTypes := [] }

/-- Builds the FileRecord the classifier would return for a detected
category, with the path-derived fields irrelevant to classification. -/
def classifiedRecord (mime ext : String) (c : FileCategory) : FileInfo :=
  { Path := "", Name := "", Size := 0, Category := c, MimeType := mime, Extension := ext }

/-!
## Helper lemmas about the serialized result writes
-/

/-- Writing results at indices never changes the length of the slice. -/
theorem writeResults_length (f : Nat → Option Result) (is : List Nat)
    (acc : List (Option Result)) :
    (writeResults f is acc).length = acc.length := by
  induction is generalizing acc with
  | nil => rfl
  | cons i is ih => simp [writeResults, ih]

/-- An index already holding a non-nil result still holds one after any
further writes, provided every write stores a non-nil result. -/
theorem writeResults_populated_preserve (f : Nat → Option Result) (is : List Nat)
    (acc : List (Option Result)) (j : Nat)
    (hf : ∀ i ∈ is, (f i).isSome = true)
    (h : ∃ r, acc[j]? = some (some r)) :
    ∃ r, (writeResults f is acc)[j]? = some (some r) := by
  induction is generalizing acc with
  | nil => exact h
  | cons i is ih =>
    refine ih _ (fun k hk => hf k (List.mem_cons_of_mem _ hk)) ?_
    by_cases hij : i = j
    · subst hij
      obtain ⟨r, hr⟩ := h
      have hlt : i < acc.length := (List.getElem?_eq_some_iff.mp hr).1
      obtain ⟨r2, hr2⟩ := Option.isSome_iff_exists.mp (hf i (List.mem_cons_self i is))
      exact ⟨r2, by rw [List.getElem?_set_self hlt, hr2]⟩
    · obtain ⟨r, hr⟩ := h
      exact ⟨r, by rw [List.getElem?_set_ne hij]; exact hr⟩

/-- An in-range index that is among the written indices holds a non-nil
result afterwards, provided every write stores a non-nil result. -/
theorem writeResults_populated_of_mem (f : Nat → Option Result) (is : List Nat)
    (acc : List (Option Result)) (j : Nat)
    (hf : ∀ i ∈ is, (f i).isSome = true)
    (hj : j ∈ is) (hlen : j < acc.length) :
    ∃ r, (writeResults f is acc)[j]? = some (some r) := by
  induction is generalizing acc with
  | nil => cases hj
  | cons i is ih =>
    by_cases hji : j ∈ is
    · exact ih _ (fun k hk => hf k (List.mem_cons_of_mem _ hk)) hji
        (by simpa using hlen)
    · have hij : i = j := by
        rcases List.mem_cons.mp hj with h | h
        · exact h.symm
        · exact absurd h hji
      subst hij
      obtain ⟨r, hr⟩ := Option.isSome_iff_exists.mp (hf i (List.mem_cons_self i is))
      refine writeResults_populated_preserve f is _ i
        (fun k hk => hf k (List.mem_cons_of_mem _ hk)) ?_
      exact ⟨r, by rw [List.getElem?_set_self hlen, hr]⟩

/-- Over a nil-initialized slice of length n, writing every index of
range n with a non-nil result leaves no nil entry. -/
theorem writeResults_range_all_some (f : Nat → Option Result) (n : Nat)
    (hf : ∀ i, i < n → (f i).isSome = true) :
    ∀ x ∈ writeResults f (List.range n) (List.replicate n none),
      x.isSome = true := by
  intro x hx
  obtain ⟨j, hj⟩ := List.mem_iff_getElem?.mp hx
  have hjlt : j < n := by
    have h1 := (List.getElem?_eq_some_iff.mp hj).1
    rwa [writeResults_length, List.length_replicate] at h1
  obtain ⟨r, hr⟩ := writeResults_populated_of_mem f (List.range n)
    (List.replicate n none) j
    (fun i hi => hf i (List.mem_range.mp hi)) (List.mem_range.mpr hjlt)
    (by simpa using hjlt)
  rw [hj] at hr
  have hx2 : x = some r := Option.some.inj hr
  simp [hx2]

/-!
## Claim theorems
-/

/-- C1: for every filtered tool list, the ScanResult returned by RunAll
holds a result collection whose length equals the length of the filtered
list, and after the join barrier every index of that collection is
populated: no entry is missing or nil. -/
theorem RunAll_result_collection_complete (fi : FileInfo) (opts : RunOpts)
    (env : Nat → ToolEnv) :
    (RunAll fi opts env).Results.length
        = (filterTools (GetAllTools opts) fi opts).length ∧
    (RunAll fi opts env).Results.all Option.isSome = true := by
  constructor
  · simp only [RunAll]
    rw [writeResults_length, List.length_replicate]
    rfl
  · simp only [RunAll]
    rw [List.all_eq_true]
    apply writeResults_range_all_some
    intro i hi
    have h := List.getElem?_eq_getElem hi
    simp only [h]
    rfl

/-- C2: for a tool subprocess that exits non-zero without timing out, a
non-empty trimmed combined output yields a success carrying that output,
not a failure; only an empty trimmed output yields a failure carrying the
underlying process error. -/
theorem runTool_nonzero_exit_output_wins (t : Tool) (opts : RunOpts)
    (env : ToolEnv) (e : String)
    (hav : env.available = true) (hcmd : env.builtCmd = true)
    (htime : env.deadlineExceeded = false) (herr : env.execErr = some e) :
    (goTrimSpace env.out ≠ "" →
      (runTool t opts env).Output = goTrimSpace env.out ∧
      (runTool t opts env).Error = none ∧
      (runTool t opts env).Skipped = false) ∧
    (goTrimSpace env.out = "" →
      (runTool t opts env).Error = some (.process e) ∧
      (runTool t opts env).Output = "" ∧
      (runTool t opts env).Skipped = false) := by
  unfold runTool
  rw [hav, hcmd, htime, herr]
  by_cases hout : goTrimSpace env.out = "" <;> simp [hout]

/-- C2 witness: with the binary present, a command built, no deadline
expiry and exit status 1, the concrete output "found flag" plus newline
gives a success carrying "found flag" and no failure branch applies. -/
theorem runTool_nonzero_exit_output_wins_witness :
    (goTrimSpace envNonzeroExit.out ≠ "" →
      (runTool zstegTool {} envNonzeroExit).Output = goTrimSpace envNonzeroExit.out ∧
      (runTool zstegTool {} envNonzeroExit).Error = none ∧
      (runTool zstegTool {} envNonzeroExit).Skipped = false) ∧
    (goTrimSpace envNonzeroExit.out = "" →
      (runTool zstegTool {} envNonzeroExit).Error = some (.process "exit status 1") ∧
      (runTool zstegTool {} envNonzeroExit).Output = "" ∧
      (runTool zstegTool {} envNonzeroExit).Skipped = false) :=
  runTool_nonzero_exit_output_wins zstegTool {} envNonzeroExit "exit status 1" rfl rfl rfl rfl

/-- C6: a dispatched tool whose deadline context expired records a failure
whose error names the configured duration, with no output and no skip, so
never a success. -/
theorem runTool_timeout_failure (t : Tool) (opts : RunOpts) (env : ToolEnv)
    (hav : env.available = true) (hcmd : env.builtCmd = true)
    (htime : env.deadlineExceeded = true) :
    (runTool t opts env).Error = some (.timeout opts.Timeout) ∧
    (runTool t opts env).Output = "" ∧
    (runTool t opts env).Skipped = false := by
  unfold runTool
  rw [hav, hcmd, htime]
  simp

/-- C8: when the binary is absent from the search path the tool records a
skipped result whose reason is the binary name followed by " not
installed", and the result is identical for any two environments that
differ only in what the command builder and the subprocess would have
done, so neither is ever consulted. -/
theorem runTool_missing_binary_skips (t : Tool) (opts : RunOpts)
    (env env2 : ToolEnv)
    (h : env.available = false) (h2 : env2.available = false) :
    runTool t opts env = runTool t opts env2 ∧
    (runTool t opts env).Skipped = true ∧
    (runTool t opts env).SkipReason = t.Binary ++ " not installed" ∧
    (runTool t opts env).Error = none ∧
    (runTool t opts env).Output = "" := by
  unfold runTool
  rw [h, h2]
  simp

/-- C6 witness: a concrete expired deadline yields the timeout failure
carrying the configured 60 second duration, with no output and no skip. -/
theorem runTool_timeout_failure_witness :
    (runTool binwalkTool { Timeout := 60 * 1000000000 } envExpired).Error
        = some (.timeout (60 * 1000000000)) ∧
    (runTool binwalkTool { Timeout := 60 * 1000000000 } envExpired).Output = "" ∧
    (runTool binwalkTool { Timeout := 60 * 1000000000 } envExpired).Skipped = false :=
  runTool_timeout_failure binwalkTool { Timeout := 60 * 1000000000 } envExpired rfl rfl rfl

/-- C8 witness: with the steghide binary missing, two environments with
opposite builder outcomes and different subprocess behaviours give the
same skipped result with reason "steghide not installed". -/
theorem runTool_missing_binary_skips_witness :
    runTool steghideExtractTool {} envMissingA = runTool steghideExtractTool {} envMissingB ∧
    (runTool steghideExtractTool {} envMissingA).Skipped = true ∧
    (runTool steghideExtractTool {} envMissingA).SkipReason = "steghide" ++ " not installed" ∧
    (runTool steghideExtractTool {} envMissingA).Error = none ∧
    (runTool steghideExtractTool {} envMissingA).Output = "" :=
  runTool_missing_binary_skips steghideExtractTool {} envMissingA envMissingB rfl rfl

/-- C7: a tool whose case-insensitive name appears in both the exclude
(Skip) list and the include (Only) list is dropped by filterTools, for
every registry, file record and options value: exclusion always wins. -/
theorem filterTools_skip_beats_only (tools : List Tool) (fi : FileInfo)
    (opts : RunOpts) (t : Tool)
    (hskip : (opts.Skip.any fun s => goToLower s = goToLower t.Name) = true)
    (_honly : (opts.Only.any fun o => goToLower o = goToLower t.Name) = true) :
    t ∉ filterTools tools fi opts := by
  intro hmem
  have h := (List.mem_filter.mp hmem).2
  rw [Bool.and_eq_true, Bool.and_eq_true] at h
  have hn := h.1.1
  rw [hskip] at hn
  simp at hn

/-- C7 witness: the registry exiftool descriptor, named in Skip as
"ExifTool" and in Only as "exiftool", is absent from the filtered list. -/
theorem filterTools_skip_beats_only_witness :
    ({ Name := "exiftool", Binary := "exiftool", Category := "general",
       SupportedTypes := allTypes } : Tool) ∉
      filterTools (GetAllTools {}) pngFileInfo
        { Skip := ["ExifTool"], Only := ["exiftool"] } :=
  filterTools_skip_beats_only (GetAllTools {}) pngFileInfo
    { Skip := ["ExifTool"], Only := ["exiftool"] }
    { Name := "exiftool", Binary := "exiftool", Category := "general",
      SupportedTypes := allTypes }
    (by decide) (by decide)

/-- C9: a tool with an empty SupportedTypes set that survives the
include and exclude rules is kept by filterTools for every file record,
whatever its detected category, including unknown. -/
theorem filterTools_empty_types_included (tools : List Tool) (fi : FileInfo)
    (opts : RunOpts) (t : Tool)
    (hmem : t ∈ tools)
    (hempty : t.SupportedTypes = [])
    (hskip : (opts.Skip.any fun s => goToLower s = goToLower t.Name) = false)
    (honly : opts.Only.isEmpty = true ∨
      (opts.Only.any fun o => goToLower o = goToLower t.Name) = true) :
    t ∈ filterTools tools fi opts := by
  apply List.mem_filter.mpr
  refine ⟨hmem, ?_⟩
  rw [Bool.and_eq_true, Bool.and_eq_true]
  refine ⟨⟨?_, ?_⟩, ?_⟩
  · rw [hskip]; rfl
  · rcases honly with h | h <;> simp [h]
  · simp [hempty]

/-- C9 witness: a tool with an empty applicable-category set is kept for
a file of unknown category under empty include and exclude lists. -/
theorem filterTools_empty_types_included_witness :
    genericTool ∈ filterTools [genericTool] unknownFileInfo {} :=
  filterTools_empty_types_included [genericTool] unknownFileInfo {}
    genericTool (by decide) rfl (by decide) (Or.inl rfl)

/-- C3 counterexample: a negative per-tool timeout is not replaced by the
60 second default, since RunAll only replaces an exactly zero timeout, so
a RunOpts with Timeout -1 nanoseconds keeps the already expired deadline
rather than 60 seconds. -/
theorem normalizeTimeout_neg_not_default :
    normalizeTimeout (-1) = -1 ∧ normalizeTimeout (-1) ≠ 60 * 1000000000 := by
  decide

/-- C3 (amended): RunAll bounds each subprocess by the 60 second default
exactly when the per-tool timeout is unset (zero); a non-zero timeout,
negative ones included, is passed through unchanged. -/
theorem normalizeTimeout_default_on_zero (t : Int) :
    normalizeTimeout 0 = 60 * 1000000000 ∧
    (t ≠ 0 → normalizeTimeout t = t) := by
  constructor
  · decide
  · intro h
    unfold normalizeTimeout
    rw [if_neg h]

/-- C3 witness: the amended statement at the concrete timeout -5. -/
theorem normalizeTimeout_default_on_zero_witness :
    normalizeTimeout 0 = 60 * 1000000000 ∧
    ((-5 : Int) ≠ 0 → normalizeTimeout (-5) = -5) :=
  normalizeTimeout_default_on_zero (-5)

/-- C4: for every positive --timeout flag value the scan command stores
the RunOpts zero value 0 in opts.Timeout, which RunAll then replaces with
the 60 second default, so the number of seconds the user configures never
influences any subprocess deadline. -/
theorem scanCmd_timeout_flag_ignored (flag : Int) (h : flag > 0) :
    scanCmdTimeout flag = 0 ∧
    normalizeTimeout (scanCmdTimeout flag) = 60 * 1000000000 := by
  unfold scanCmdTimeout
  rw [if_pos h]
  exact ⟨rfl, by decide⟩

/-- C4 witness: a user passing --timeout 120 still gets the 60 second
effective deadline. -/
theorem scanCmd_timeout_flag_ignored_witness :
    scanCmdTimeout 120 = 0 ∧
    normalizeTimeout (scanCmdTimeout 120) = 60 * 1000000000 :=
  scanCmd_timeout_flag_ignored 120 (by decide)

/-- C5 counterexample: a 4 byte file consisting of exactly the PNG magic
bytes falls below the 8 byte minimum detectCategory requires before any
magic check runs, so with a .txt extension it classifies as unknown, not
as png. -/
theorem detectCategory_short_png_magic_not_png :
    detectCategory "text/plain; charset=utf-8" ".txt"
        [0x89, 0x50, 0x4E, 0x47] = .unknown ∧
    detectCategory "text/plain; charset=utf-8" ".txt"
        [0x89, 0x50, 0x4E, 0x47] ≠ .png := by
  decide

/-- C5 (amended): for every file whose header holds at least 8 bytes and
whose first 4 bytes are 89 50 4E 47, classification assigns category png
and IsImage is true on the resulting record, regardless of the MIME
string and of the extension, .txt included: magic bytes take precedence
over the extension fallback. -/
theorem detectCategory_png_magic (mime ext : String) (header : List Nat)
    (hlen : 8 ≤ header.length)
    (h0 : byteAt header 0 = 0x89) (h1 : byteAt header 1 = 0x50)
    (h2 : byteAt header 2 = 0x4E) (h3 : byteAt header 3 = 0x47) :
    detectCategory mime ext header = .png ∧
    (classifiedRecord mime ext (detectCategory mime ext header)).IsImage
      = true := by
  have hpng : detectCategory mime ext header = .png := by
    unfold detectCategory
    rw [if_pos hlen, if_pos ⟨h0, h1, h2, h3⟩]
  refine ⟨hpng, ?_⟩
  rw [hpng]
  rfl

/-- C5 witness: the amended statement on a concrete 8 byte header with
PNG magic bytes and a .txt extension. -/
theorem detectCategory_png_magic_witness :
    detectCategory "text/plain; charset=utf-8" ".txt"
        [0x89, 0x50, 0x4E, 0x47, 0x0D, 0x0A, 0x1A, 0x0A] = .png ∧
    (classifiedRecord "text/plain; charset=utf-8" ".txt"
      (detectCategory "text/plain; charset=utf-8" ".txt"
        [0x89, 0x50, 0x4E, 0x47, 0x0D, 0x0A, 0x1A, 0x0A])).IsImage = true :=
  detectCategory_png_magic "text/plain; charset=utf-8" ".txt"
    [0x89, 0x50, 0x4E, 0x47, 0x0D, 0x0A, 0x1A, 0x0A]
    (by decide) (by decide) (by decide) (by decide) (by decide)

/-- C10 counterexample: the registry holds 23 descriptors, not 17, and
dispatching only = [exiftool] for a file of unknown category yields an
empty filtered list rather than one entry, because exiftool is declared
for the 11 image and audio categories only, not for every category. -/
theorem registry_only_exiftool_counterexample :
    (GetAllTools {}).length = 23 ∧
    (filterTools (GetAllTools { Only := ["exiftool"] }) unknownFileInfo
      { Only := ["exiftool"] }).length = 0 := by
  decide

/-- C10 (amended): dispatching options with only = [exiftool] and an
empty skip list against the full 23 descriptor registry yields a filtered
list with exactly 1 entry whenever the file category is one of the 11
recognized image or audio categories (for unknown it yields 0). -/
theorem filterTools_only_exiftool_one (ropts : RunOpts) (fi : FileInfo)
    (h : fi.Category ≠ .unknown) :
    (filterTools (GetAllTools ropts) fi
      { Skip := [], Only := ["exiftool"] }).length = 1 := by
  obtain ⟨p, n, s, c, m, e⟩ := fi
  cases c <;> first | rfl | exact absurd rfl h

/-- C10 witness: the amended statement for a PNG file record. -/
theorem filterTools_only_exiftool_one_witness :
    (filterTools (GetAllTools {}) pngFileInfo
      { Skip := [], Only := ["exiftool"] }).length = 1 :=
  filterTools_only_exiftool_one {} pngFileInfo (by decide)

end StegCLI
